import Mathlib

/-!
Shallow embedding of the fetch-freshness cache of the `ocp-pws` personal
weather station server, together with proofs of the specified properties.

The repository contains three historically divergent variants of the
freshness policy and fetch orchestration:
  * Variant A — fixed-grid window (README.md embedded source): fetch only
    within `fetchBufferSeconds` after each 5-minute boundary, once per window.
  * Variant B — observation-age with floor (main.go, first program): 5-minute
    staleness ceiling on the observation timestamp, 30-second rate-limit
    floor, retry loop with up to 3 attempts on stale data.
  * Variant C — long-interval polling (main.go, second program): hard
    30-minute minimum between fetches, 35-minute staleness ceiling, fall back
    to cached data on any fetch failure.

Time is modelled as `Int` seconds; `timeZero` plays the role of Go's zero
`time.Time` (`IsZero`).  Go's `time.Now()` never returns the zero instant, so
realistic wall-clock arguments satisfy `now ≠ timeZero`.  Go integer division
truncates toward zero, which is `Int.tdiv`.  Upstream HTTP/JSON effects are
represented by a `FetchResult` input: `netErr` collapses request-creation,
network, body-read and unmarshal failures (none of which touch the cache),
and `ok resp` is a successfully parsed body.
-/

/-- Wall-clock instants, in seconds.  Go's zero `time.Time` is `timeZero`. -/
abbrev Time : Type := Int

/-- The zero instant: `time.Time{}.IsZero()` in Go. -/
def timeZero : Time := (0 : Int)

/-- Nested `imperial` block of one observation (main.go lines 42–53).
`Pressure`, `PrecipRate`, `PrecipTotal` are `float64` in Go; they are carried
through and never computed on, so they are represented as `Rat`. -/
structure Imperial where
  Temp : Int
  HeatIndex : Int
  Dewpt : Int
  WindChill : Int
  WindSpeed : Int
  WindGust : Int
  Pressure : Rat
  PrecipRate : Rat
  PrecipTotal : Rat
  Elev : Int
deriving DecidableEq, Repr

/-- One station observation (main.go lines 26–54).  `SolarRadiation`, `Lon`,
`Lat`, `Uv` are carried `float64`s modelled as `Rat`; `RealtimeFrequency` is
`interface{}` in Go, never read, modelled as `Unit`. -/
structure Observation where
  StationID : String
  ObsTimeUtc : Time
  ObsTimeLocal : String
  Neighborhood : String
  SoftwareType : String
  Country : String
  SolarRadiation : Rat
  Lon : Rat
  RealtimeFrequency : Unit
  Epoch : Int
  Lat : Rat
  Uv : Rat
  Winddir : Int
  Humidity : Int
  QcStatus : Int
  Imperial : Imperial
deriving DecidableEq, Repr

/-- The upstream response / ObservationSet (`weatherCurrent`). -/
structure weatherCurrent where
  Observations : List Observation
deriving DecidableEq, Repr

/-- Fields displayed on the index.html template (main.go lines 58–73). -/
structure Index where
  StationID : String
  ReportTime : String
  CurrentTempF : Int
  CurrentTempC : Int
  FeelsLikeF : Int
  FeelsLikeC : Int
  DewPointF : Int
  DewPointC : Int
  Humidity : Int
  WindSpeed : Int
  WindGust : Int
  WindDirC : String
  WindDirD : Int
  RandomSecret : String
deriving DecidableEq, Repr

/-- Cache for weather data (main.go lines 86–91).  The `sync.RWMutex` is not
represented: in this sequential embedding every operation acts on a
consistent snapshot, which is exactly what the lock guarantees. -/
structure weatherCache where
  data : weatherCurrent
  lastFetched : Time
  dataAge : Time
deriving DecidableEq, Repr

/-- The empty cache at process start (`var cache = &weatherCache{}`). -/
def weatherCache.empty : weatherCache :=
  { data := ⟨[]⟩, lastFetched := timeZero, dataAge := timeZero }

/-- Outcome of the HTTP/JSON stage of `fetchWeatherData`: `netErr` collapses
request-creation, network, body-read and unmarshal failures (all return
before the cache is touched); `ok` is a successfully parsed body. -/
inductive FetchResult where
  | netErr : FetchResult
  | ok : weatherCurrent → FetchResult
deriving DecidableEq, Repr

/-- Classified fetch errors (the Go code carries them as strings; stale-data
errors are recognised by the substring "stale data", which only the
staleness error message contains). -/
inductive FetchError where
  | network : FetchError
  | emptyResult : FetchError
  | staleData : FetchError
  | noCache : FetchError
  | retriesExhausted : FetchError
deriving DecidableEq, Repr

/-- `replace` of the spec: the exclusive-lock write block of
`fetchWeatherData` (main.go lines 281–287 and 682–688), which overwrites
`data`, `lastFetched` and `dataAge` together. -/
def weatherCache.replace (_c : weatherCache) (data : weatherCurrent)
    (fetchedAt asOf : Time) : weatherCache :=
  { data := data, lastFetched := fetchedAt, dataAge := asOf }

/-- `snapshot` of the spec: the read-lock block of `getCachedWeatherData`
(main.go lines 320–330 and 708–712), reading all three fields together. -/
def weatherCache.snapshot (c : weatherCache) : weatherCurrent × Time × Time :=
  (c.data, c.lastFetched, c.dataAge)

/-! ## Derived display fields (request handler, identical in all variants) -/

/-- The 17-entry compass table (main.go line 407). -/
def compassDirs : List String :=
  ["N", "NNE", "NE", "ENE", "E", "ESE", "SE", "SSE", "S", "SSW", "SW",
   "WSW", "W", "WNW", "NW", "NNW", "N"]

/-- `compassIndex := obs.Winddir / 22`, clamped to the table length minus one
when it reaches the length (main.go lines 408–413). -/
def compassIndexOf (winddir : Int) : Int :=
  let i := Int.tdiv winddir 22
  if i ≥ (compassDirs.length : Int) then (compassDirs.length : Int) - 1 else i

/-- Feels-like selection (main.go lines 399–406): heat index above 70°F,
wind chill at or below. -/
def feelsLike (imp : Imperial) : Int × Int :=
  if imp.Temp > 70 then
    (imp.HeatIndex, Int.tdiv ((imp.HeatIndex - 32) * 5) 9)
  else
    (imp.WindChill, Int.tdiv ((imp.WindChill - 32) * 5) 9)

/-- Construction of the `Index` value passed to the template (main.go lines
399–430).  Go indexes `compassDirs[compassIndex]` directly and would panic
out of range; `getD` with default `""` stands in, and the bounds theorem
shows the default is never used for `winddir` in 0..359. -/
def mkIndex (obs : Observation) (rsec : String) : Index :=
  let fl := feelsLike obs.Imperial
  { StationID := obs.StationID
    ReportTime := obs.ObsTimeLocal
    CurrentTempF := obs.Imperial.Temp
    CurrentTempC := Int.tdiv ((obs.Imperial.Temp - 32) * 5) 9
    FeelsLikeF := fl.1
    FeelsLikeC := fl.2
    DewPointF := obs.Imperial.Dewpt
    DewPointC := Int.tdiv ((obs.Imperial.Dewpt - 32) * 5) 9
    Humidity := obs.Humidity
    WindSpeed := obs.Imperial.WindSpeed
    WindGust := obs.Imperial.WindGust
    WindDirC := compassDirs.getD (compassIndexOf obs.Winddir).toNat ""
    WindDirD := obs.Winddir
    RandomSecret := rsec }

/-! ## Variant A — fixed-grid window (README.md embedded source) -/

namespace VariantA

/-- Variant A cache (README lines 95–99): no `dataAge` field. -/
structure weatherCacheA where
  data : weatherCurrent
  lastFetched : Time
deriving DecidableEq, Repr

/-- `isWithinFetchWindow` (README lines 144–153): within `fetchBufferSeconds`
of the enclosing 5-minute boundary.  `t.Truncate(5*time.Minute)` rounds down
to a multiple of 300 s since the zero instant; with second-resolution `Int`
times this is `300 * (t / 300)` (floor division — times of interest are
after the zero instant). -/
def isWithinFetchWindow (fetchBufferSeconds : Int) (t : Time) : Bool :=
  let windowStart := 300 * Int.ediv t 300
  let secondsSinceWindow := t - windowStart
  0 ≤ secondsSinceWindow ∧ secondsSinceWindow ≤ fetchBufferSeconds

/-- `shouldFetchNewData` (README lines 164–183): empty cache → fetch; outside
the window → serve cache; inside the window → fetch once per 5-minute
window. -/
def shouldFetchNewData (fetchBufferSeconds : Int) (c : weatherCacheA)
    (t : Time) : Bool :=
  if c.lastFetched = timeZero then
    true
  else if ¬ isWithinFetchWindow fetchBufferSeconds t then
    false
  else
    300 * Int.ediv c.lastFetched 300 < 300 * Int.ediv t 300

/-- `fetchWeatherData` (README lines 186–241): no freshness check; an empty
observations array is an error and is not cached; otherwise the response is
cached with the fetch time. -/
def fetchWeatherData (c : weatherCacheA) (now : Time) (r : FetchResult) :
    weatherCacheA × Except FetchError weatherCurrent :=
  match r with
  | FetchResult.netErr => (c, Except.error FetchError.network)
  | FetchResult.ok resp =>
    match resp.Observations with
    | [] => (c, Except.error FetchError.emptyResult)
    | _ :: _ => ({ data := resp, lastFetched := now }, Except.ok resp)

/-- Which branch of `getCachedWeatherData` (README lines 244–268) a request
takes: the fetch branch, the defensive empty-cache re-fetch branch, or the
serve-cache branch. -/
inductive BranchA where
  | fetchPath : BranchA
  | emptyCacheRefetch : BranchA
  | serveCache : BranchA
deriving DecidableEq, Repr

/-- `getCachedWeatherData` (README lines 244–268), with the branch taken
recorded alongside the resulting cache and response. -/
def getCachedWeatherData (fetchBufferSeconds : Int) (c : weatherCacheA)
    (now : Time) (r : FetchResult) :
    weatherCacheA × Except FetchError weatherCurrent × BranchA :=
  if shouldFetchNewData fetchBufferSeconds c now then
    let (c2, res) := fetchWeatherData c now r
    (c2, res, BranchA.fetchPath)
  else if c.lastFetched = timeZero then
    let (c2, res) := fetchWeatherData c now r
    (c2, res, BranchA.emptyCacheRefetch)
  else
    (c, Except.ok c.data, BranchA.serveCache)

end VariantA

/-! ## Variant B — observation-age with floor and retries (main.go, first
program, lines 1–448) -/

namespace VariantB

/-- The timestamp formats tried by `parseObsTimeLocal` (main.go lines
158–165). -/
def goTimeFormats : List String :=
  ["2006-01-02 3:04 PM MST",
   "2006-01-02 15:04 MST",
   "1/2/2006 3:04:05 PM",
   "1/2/2006 15:04:05",
   "2006-01-02T15:04:05-07:00",
   "2006-01-02 15:04:05"]

/-- `parseObsTimeLocal` (main.go lines 156–174): try each known format in
order; the first success wins; otherwise an error (here `none`).  The
underlying `time.Parse` primitive is a parameter `tryParse format input`. -/
def parseObsTimeLocal (tryParse : String → String → Option Time)
    (obsTimeLocal : String) : Option Time :=
  goTimeFormats.findSome? (fun format => tryParse format obsTimeLocal)

/-- `isDataFresh` (main.go lines 177–193): parse the local timestamp; on
failure fail open — report fresh with the current wall clock as the as-of
time; on success compare the age against the 5-minute ceiling.  The Go
function's `error` result is `nil` in both branches, modelled by the final
`Option String` component being `none`. -/
def isDataFresh (tryParse : String → String → Option Time) (now : Time)
    (obsTimeLocal : String) : Bool × Time × Option String :=
  match parseObsTimeLocal tryParse obsTimeLocal with
  | none => (true, now, none)
  | some obsTime => (now - obsTime ≤ 300, obsTime, none)

/-- `shouldFetchNewData` (main.go lines 196–222): empty cache → fetch; cached
observation older than 5 minutes → fetch; otherwise serve cache (both the
rate-limited and the fresh branch return `false`). -/
def shouldFetchNewData (c : weatherCache) (t : Time) : Bool :=
  if c.lastFetched = timeZero then
    true
  else if c.dataAge ≠ timeZero ∧ t - c.dataAge > 300 then
    true
  else if t - c.lastFetched < 30 then
    false
  else
    false

/-- `fetchWeatherData` (main.go lines 225–294): on a parsed non-empty
response the cache is updated unconditionally (the `isDataFresh` error is
always `nil`, so `dataAge` is always set); a stale observation is then
reported as a stale-data error, after the cache write. -/
def fetchWeatherData (tryParse : String → String → Option Time)
    (c : weatherCache) (now : Time) (r : FetchResult) :
    weatherCache × Except FetchError weatherCurrent :=
  match r with
  | FetchResult.netErr => (c, Except.error FetchError.network)
  | FetchResult.ok resp =>
    match resp.Observations with
    | [] => (c, Except.error FetchError.emptyResult)
    | obs :: _ =>
      let fresh := isDataFresh tryParse now obs.ObsTimeLocal
      let c2 : weatherCache :=
        { data := resp, lastFetched := now, dataAge := fresh.2.1 }
      if fresh.1 then (c2, Except.ok resp)
      else (c2, Except.error FetchError.staleData)

/-- `getCachedWeatherData` (main.go lines 297–348): retry loop, `maxRetries`
= 3.  Each attempt consumes one `(now, outcome)` pair from the schedule (the
Go loop sleeps 5 s and re-reads `time.Now()` between attempts); an exhausted
schedule is the fall-through after the `for` loop (line 347).  Retrying
happens only when the error message contains "stale data" (only the
staleness error does) and attempts remain. -/
def getCachedWeatherData (tryParse : String → String → Option Time)
    (maxRetries : Nat) (c : weatherCache) (attempt : Nat) :
    List (Time × FetchResult) → weatherCache × Except FetchError weatherCurrent
  | [] => (c, Except.error FetchError.retriesExhausted)
  | (now, r) :: rest =>
    if shouldFetchNewData c now then
      let (c2, res) := fetchWeatherData tryParse c now r
      match res with
      | Except.error e =>
        if e = FetchError.staleData ∧ attempt < maxRetries then
          getCachedWeatherData tryParse maxRetries c2 (attempt + 1) rest
        else
          (c2, Except.error e)
      | Except.ok d => (c2, Except.ok d)
    else if c.lastFetched ≠ timeZero ∧ c.dataAge ≠ timeZero ∧
        now - c.dataAge ≤ 300 then
      (c, Except.ok c.data)
    else
      let (c2, res) := fetchWeatherData tryParse c now r
      match res with
      | Except.error e =>
        if e = FetchError.staleData ∧ attempt < maxRetries then
          getCachedWeatherData tryParse maxRetries c2 (attempt + 1) rest
        else
          (c2, Except.error e)
      | Except.ok d => (c2, Except.ok d)

end VariantB

/-! ## Variant C — long-interval polling with fallback (main.go, second
program, lines 449–833) -/

namespace VariantC

/-- `isDataFresh` (main.go lines 590–601): compare the observation's UTC
timestamp against the 35-minute ceiling; the `error` result is always
`nil`. -/
def isDataFresh (now : Time) (obsTimeUtc : Time) : Bool × Time × Option String :=
  (now - obsTimeUtc ≤ 2100, obsTimeUtc, none)

/-- `shouldFetchNewData` (main.go lines 603–623): empty cache → fetch; less
than 30 minutes since the last fetch → serve cache; otherwise fetch. -/
def shouldFetchNewData (c : weatherCache) (t : Time) : Bool :=
  if c.lastFetched = timeZero then
    true
  else if t - c.lastFetched < 1800 then
    false
  else
    true

/-- `fetchWeatherData` (main.go lines 625–695): a parsed non-empty response
is cached unconditionally (the `isDataFresh` error is always `nil`), and a
stale observation is then reported as a stale-data error — after the cache
write. -/
def fetchWeatherData (c : weatherCache) (now : Time) (r : FetchResult) :
    weatherCache × Except FetchError weatherCurrent :=
  match r with
  | FetchResult.netErr => (c, Except.error FetchError.network)
  | FetchResult.ok resp =>
    match resp.Observations with
    | [] => (c, Except.error FetchError.emptyResult)
    | obs :: _ =>
      let fresh := isDataFresh now obs.ObsTimeUtc
      let c2 : weatherCache :=
        { data := resp, lastFetched := now, dataAge := fresh.2.1 }
      if fresh.1 then (c2, Except.ok resp)
      else (c2, Except.error FetchError.staleData)

/-- `getCachedWeatherData` (main.go lines 697–733): on a must-fetch decision
run the fetch; if it fails, fall back to the cache *as it stands after the
fetch* whenever it is non-empty; otherwise serve the cache, erroring only
when it is empty. -/
def getCachedWeatherData (c : weatherCache) (now : Time) (r : FetchResult) :
    weatherCache × Except FetchError weatherCurrent :=
  if shouldFetchNewData c now then
    let (c2, res) := fetchWeatherData c now r
    match res with
    | Except.error e =>
      if c2.lastFetched ≠ timeZero then (c2, Except.ok c2.data)
      else (c2, Except.error e)
    | Except.ok d => (c2, Except.ok d)
  else if c.lastFetched ≠ timeZero then
    (c, Except.ok c.data)
  else
    (c, Except.error FetchError.noCache)

end VariantC

/-! ## Concrete values used by witnesses and counterexamples -/

/-- A default imperial block (all readings zero). -/
def impDefault : Imperial :=
  { Temp := 0, HeatIndex := 0, Dewpt := 0, WindChill := 0, WindSpeed := 0,
    WindGust := 0, Pressure := 0, PrecipRate := 0, PrecipTotal := 0, Elev := 0 }

/-- A default observation. -/
def obsDefault : Observation :=
  { StationID := "KSTATION1", ObsTimeUtc := timeZero, ObsTimeLocal := "",
    Neighborhood := "", SoftwareType := "", Country := "",
    SolarRadiation := 0, Lon := 0, RealtimeFrequency := (), Epoch := 0,
    Lat := 0, Uv := 0, Winddir := 0, Humidity := 0, QcStatus := 0,
    Imperial := impDefault }

/-- The previously accepted observation set of the staleness scenarios. -/
def priorSet : weatherCurrent := ⟨[obsDefault]⟩

/-- An upstream response whose observation is timestamped 40 minutes before
`now = 3000` (2400 s old) — stale under the 35-minute (2100 s) ceiling. -/
def staleSet : weatherCurrent := ⟨[{ obsDefault with ObsTimeUtc := 600 }]⟩

/-- A cache holding `priorSet`, fetched at t = 600. -/
def priorCache : weatherCache :=
  { data := priorSet, lastFetched := 600, dataAge := 600 }

/-- A cache holding `priorSet` whose observation has expired (fetched at
t = 100, observation as-of t = 100). -/
def expiredCache : weatherCache :=
  { data := priorSet, lastFetched := 100, dataAge := 100 }

/-- Observation with temperature exactly 70°F (the feels-like boundary). -/
def obs70 : Observation :=
  { obsDefault with
    Imperial := { impDefault with Temp := 70, HeatIndex := 90, WindChill := 45 } }

/-- Observation of the first derived-field scenario (75°F, heat index 78). -/
def obs75 : Observation :=
  { obsDefault with
    Imperial := { impDefault with Temp := 75, HeatIndex := 78 } }

/-- Observation of the second derived-field scenario (50°F, wind chill 45). -/
def obs50 : Observation :=
  { obsDefault with
    Imperial := { impDefault with Temp := 50, WindChill := 45 } }

/-! ## Claims -/

/-- C3: For every time `now`, if the cache is empty (`lastFetched` is the
zero instant), `shouldFetchNewData now` returns true ("must fetch"), in
every policy variant (fixed-grid A, observation-age B, 30-minute C). -/
theorem emptyCache_must_fetch (t : Time) :
    (∀ (buf : Int) (c : VariantA.weatherCacheA), c.lastFetched = timeZero →
      VariantA.shouldFetchNewData buf c t = true) ∧
    (∀ c : weatherCache, c.lastFetched = timeZero →
      VariantB.shouldFetchNewData c t = true) ∧
    (∀ c : weatherCache, c.lastFetched = timeZero →
      VariantC.shouldFetchNewData c t = true) := by
  refine ⟨fun buf c h => ?_, fun c h => ?_, fun c h => ?_⟩ <;>
    simp [VariantA.shouldFetchNewData, VariantB.shouldFetchNewData,
      VariantC.shouldFetchNewData, h]

/-- Witness for C3 at the process-start cache and `t = 1000`. -/
theorem emptyCache_must_fetch_witness :
    weatherCache.empty.lastFetched = timeZero ∧
    VariantA.shouldFetchNewData 30 ⟨⟨[]⟩, timeZero⟩ 1000 = true ∧
    VariantB.shouldFetchNewData weatherCache.empty 1000 = true ∧
    VariantC.shouldFetchNewData weatherCache.empty 1000 = true :=
  ⟨rfl, (emptyCache_must_fetch 1000).1 30 ⟨⟨[]⟩, timeZero⟩ rfl,
    (emptyCache_must_fetch 1000).2.1 weatherCache.empty rfl,
    (emptyCache_must_fetch 1000).2.2 weatherCache.empty rfl⟩

/-- C4 counterexample: with an empty cache at `t = 100` (70 s past the
permitted 30 s window after the 5-minute boundary at 0), the fixed-grid
policy returns true (must fetch), not false (serve cache) as the claim
states. -/
theorem outside_window_empty_cache_fetches :
    VariantA.isWithinFetchWindow 30 100 = false ∧
    VariantA.shouldFetchNewData 30 ⟨⟨[]⟩, timeZero⟩ 100 = true := by
  decide

/-- C4 (amended): in the fixed-grid variant, for every time strictly outside
the permitted fetch window, the policy returns false ("serve cache")
whenever the cache is non-empty; with an empty cache it returns true. -/
theorem outside_window_serves_cache (buf : Int) (c : VariantA.weatherCacheA)
    (t : Time) (hw : VariantA.isWithinFetchWindow buf t = false)
    (hc : c.lastFetched ≠ timeZero) :
    VariantA.shouldFetchNewData buf c t = false := by
  simp [VariantA.shouldFetchNewData, hc, hw]

/-- Witness for C4 (amended): buffer 30, cache fetched at t = 50, request at
t = 100 (outside the window). -/
theorem outside_window_serves_cache_witness :
    VariantA.isWithinFetchWindow 30 100 = false ∧
    (⟨⟨[]⟩, (50 : Int)⟩ : VariantA.weatherCacheA).lastFetched ≠ timeZero ∧
    VariantA.shouldFetchNewData 30 ⟨⟨[]⟩, (50 : Int)⟩ 100 = false :=
  ⟨by decide, by decide,
    outside_window_serves_cache 30 ⟨⟨[]⟩, (50 : Int)⟩ 100 (by decide) (by decide)⟩

/-- C6: replacing the cache with `(s, f, a)` and immediately reading a
snapshot with no intervening replace returns exactly the written triple. -/
theorem replace_snapshot_roundtrip (c : weatherCache) (s : weatherCurrent)
    (f a : Time) :
    (c.replace s f a).snapshot = (s, f, a) := rfl

/-- C7: at `Imperial.Temp = 75`, `HeatIndex = 78` the derived feels-like is
78°F / 25°C (integer-truncated `(78-32)*5/9`); at `Temp = 50`,
`WindChill = 45` it is 45°F / 7°C. -/
theorem feelsLike_scenarios :
    (mkIndex obs75 "r").FeelsLikeF = 78 ∧ (mkIndex obs75 "r").FeelsLikeC = 25 ∧
    (mkIndex obs50 "r").FeelsLikeF = 45 ∧ (mkIndex obs50 "r").FeelsLikeC = 7 ∧
    Int.tdiv ((78 - 32) * 5) 9 = 25 ∧ Int.tdiv ((45 - 32) * 5) 9 = 7 := by
  decide

/-- C9: in the fixed-grid variant, a "serve cache" decision implies the cache
is non-empty, so the defensive empty-cache re-fetch branch inside
`getCachedWeatherData`'s serve-cache path is unreachable. -/
theorem emptyCacheRefetch_unreachable (buf : Int) (c : VariantA.weatherCacheA)
    (t : Time) (r : FetchResult) :
    (VariantA.getCachedWeatherData buf c t r).2.2 ≠
      VariantA.BranchA.emptyCacheRefetch ∧
    (VariantA.shouldFetchNewData buf c t = false → c.lastFetched ≠ timeZero) := by
  have key : VariantA.shouldFetchNewData buf c t = false →
      c.lastFetched ≠ timeZero := by
    intro h hz
    simp [VariantA.shouldFetchNewData, hz] at h
  refine ⟨?_, key⟩
  unfold VariantA.getCachedWeatherData
  by_cases hf : VariantA.shouldFetchNewData buf c t
  · simp [hf]
  · have hc := key (by simpa using hf)
    simp [hf, hc]

/-- Witness for C9 at a non-empty cache served outside the fetch window. -/
theorem emptyCacheRefetch_unreachable_witness :
    VariantA.shouldFetchNewData 30 ⟨⟨[]⟩, (50 : Int)⟩ 100 = false ∧
    (⟨⟨[]⟩, (50 : Int)⟩ : VariantA.weatherCacheA).lastFetched ≠ timeZero :=
  ⟨by decide,
    (emptyCacheRefetch_unreachable 30 ⟨⟨[]⟩, (50 : Int)⟩ 100
      FetchResult.netErr).2 (by decide)⟩

/-- C5: when the observation's `obsTimeLocal` string is parsed by none of the
known formats, the freshness check fails open: `isDataFresh` reports fresh
with the current wall clock substituted as the as-of time and no error, and
the fetch succeeds (never fails the request), caching the response with
`dataAge = now`. -/
theorem timestampParse_fails_open (tryParse : String → String → Option Time)
    (now : Time) (c : weatherCache) (resp : weatherCurrent)
    (obs : Observation) (rest : List Observation)
    (hobs : resp.Observations = obs :: rest)
    (hparse : VariantB.parseObsTimeLocal tryParse obs.ObsTimeLocal = none) :
    VariantB.isDataFresh tryParse now obs.ObsTimeLocal = (true, now, none) ∧
    VariantB.fetchWeatherData tryParse c now (FetchResult.ok resp) =
      ({ data := resp, lastFetched := now, dataAge := now }, Except.ok resp) := by
  have h1 : VariantB.isDataFresh tryParse now obs.ObsTimeLocal =
      (true, now, none) := by
    simp [VariantB.isDataFresh, hparse]
  refine ⟨h1, ?_⟩
  simp [VariantB.fetchWeatherData, hobs, h1]

/-- An observation whose local timestamp string no format parses. -/
def obsUnparsable : Observation := { obsDefault with ObsTimeLocal := "not-a-timestamp" }

/-- Witness for C5 with a parse primitive that rejects every input. -/
theorem timestampParse_fails_open_witness :
    VariantB.parseObsTimeLocal (fun _ _ => none) obsUnparsable.ObsTimeLocal = none ∧
    VariantB.isDataFresh (fun _ _ => none) 5000 obsUnparsable.ObsTimeLocal =
      (true, 5000, none) ∧
    VariantB.fetchWeatherData (fun _ _ => none) weatherCache.empty 5000
        (FetchResult.ok ⟨[obsUnparsable]⟩) =
      ({ data := ⟨[obsUnparsable]⟩, lastFetched := 5000, dataAge := 5000 },
        Except.ok ⟨[obsUnparsable]⟩) := by
  refine ⟨rfl, ?_⟩
  have h := timestampParse_fails_open (fun _ _ => none) 5000 weatherCache.empty
    ⟨[obsUnparsable]⟩ obsUnparsable [] rfl rfl
  exact h

/-- C8: for every `winddir` in 0..359 the clamped compass index is a valid
index into the 17-entry table; `winddir = 0` maps to "N" and `winddir = 359`
maps to index 16, the last entry. -/
theorem compassIndex_in_bounds (w : Int) (h0 : 0 ≤ w) (h359 : w ≤ 359) :
    (0 ≤ compassIndexOf w ∧ compassIndexOf w < (compassDirs.length : Int)) ∧
    compassDirs.getD (compassIndexOf 0).toNat "" = "N" ∧
    compassIndexOf 359 = 16 ∧ compassDirs.length = 17 := by
  refine ⟨?_, by decide, by decide, by decide⟩
  have ht : Int.tdiv w 22 = w / 22 := Int.tdiv_eq_ediv h0 (by decide)
  have hlen : ((compassDirs.length : Int)) = 17 := by decide
  simp only [compassIndexOf, ht, hlen]
  split <;> omega

/-- Witness for C8 at the upper boundary `winddir = 359`. -/
theorem compassIndex_in_bounds_witness :
    (0 ≤ compassIndexOf 359 ∧ compassIndexOf 359 < (compassDirs.length : Int)) ∧
    compassDirs.getD (compassIndexOf 0).toNat "" = "N" ∧
    compassIndexOf 359 = 16 ∧ compassDirs.length = 17 :=
  compassIndex_in_bounds 359 (by decide) (by decide)

/-- C10: the feels-like selection uses `Imperial.HeatIndex` exactly when
`Imperial.Temp > 70`; at 70 or below (including exactly 70) it uses
`Imperial.WindChill`, regardless of meteorological applicability. -/
theorem feelsLike_uses_windChill_at_70 (obs : Observation) (rsec : String) :
    (obs.Imperial.Temp > 70 →
      (mkIndex obs rsec).FeelsLikeF = obs.Imperial.HeatIndex ∧
      (mkIndex obs rsec).FeelsLikeC =
        Int.tdiv ((obs.Imperial.HeatIndex - 32) * 5) 9) ∧
    (obs.Imperial.Temp ≤ 70 →
      (mkIndex obs rsec).FeelsLikeF = obs.Imperial.WindChill ∧
      (mkIndex obs rsec).FeelsLikeC =
        Int.tdiv ((obs.Imperial.WindChill - 32) * 5) 9) := by
  constructor
  · intro h
    simp [mkIndex, feelsLike, h]
  · intro h
    simp [mkIndex, feelsLike, not_lt.mpr h]

/-- Witness for C10 at the boundary temperature of exactly 70°F. -/
theorem feelsLike_uses_windChill_at_70_witness :
    (mkIndex obs70 "r").FeelsLikeF = obs70.Imperial.WindChill ∧
    (mkIndex obs70 "r").FeelsLikeC =
      Int.tdiv ((obs70.Imperial.WindChill - 32) * 5) 9 :=
  (feelsLike_uses_windChill_at_70 obs70 "r").2 (by decide)

/-- C1 counterexample: prior cache holds `priorSet`; at `now = 3000` the
upstream returns `staleSet`, whose observation (as-of 600) is 2400 s = 40
minutes old, beyond the 2100 s = 35-minute ceiling.  The fetch is classified
as a stale-data error, but the stale set has already replaced the prior
value in the cache, and it is the stale set — not the prior value — that the
fallback read returns to the caller. -/
theorem stale_replaces_prior_counterexample :
    VariantC.shouldFetchNewData priorCache 3000 = true ∧
    (VariantC.fetchWeatherData priorCache 3000 (FetchResult.ok staleSet)).2 =
      Except.error FetchError.staleData ∧
    VariantC.getCachedWeatherData priorCache 3000 (FetchResult.ok staleSet) =
      ({ data := staleSet, lastFetched := 3000, dataAge := 600 },
        Except.ok staleSet) ∧
    staleSet ≠ priorSet :=
  ⟨rfl, rfl, rfl, by decide⟩

/-- C1 (amended): in the 30-minute variant, an observation older than the
35-minute ceiling is classified as a stale-data error; the stale set
replaces the cache (it is cached before the error is reported), and the
fallback read returns the just-cached stale set — not the prior value — to
the caller with no error surfaced. -/
theorem stale_data_cached_and_returned (c : weatherCache) (now : Time)
    (resp : weatherCurrent) (obs : Observation) (rest : List Observation)
    (hobs : resp.Observations = obs :: rest)
    (hstale : now - obs.ObsTimeUtc > 2100)
    (hfetch : VariantC.shouldFetchNewData c now = true)
    (hnz : now ≠ timeZero) :
    (VariantC.fetchWeatherData c now (FetchResult.ok resp)).2 =
      Except.error FetchError.staleData ∧
    VariantC.getCachedWeatherData c now (FetchResult.ok resp) =
      ({ data := resp, lastFetched := now, dataAge := obs.ObsTimeUtc },
        Except.ok resp) := by
  have hns : ¬(now - obs.ObsTimeUtc ≤ 2100) := not_le.mpr hstale
  have hf : VariantC.fetchWeatherData c now (FetchResult.ok resp) =
      ({ data := resp, lastFetched := now, dataAge := obs.ObsTimeUtc },
        Except.error FetchError.staleData) := by
    simp [VariantC.fetchWeatherData, hobs, VariantC.isDataFresh, hns]
  refine ⟨by rw [hf], ?_⟩
  simp [VariantC.getCachedWeatherData, hfetch, hf, hnz]

/-- Witness for C1 (amended) at the concrete staleness scenario. -/
theorem stale_data_cached_and_returned_witness :
    staleSet.Observations = { obsDefault with ObsTimeUtc := 600 } :: [] ∧
    VariantC.getCachedWeatherData priorCache 3000 (FetchResult.ok staleSet) =
      ({ data := staleSet, lastFetched := 3000, dataAge := 600 },
        Except.ok staleSet) :=
  ⟨rfl,
    (stale_data_cached_and_returned priorCache 3000 staleSet
      { obsDefault with ObsTimeUtc := 600 } [] rfl (by decide) (by decide)
      (by decide)).2⟩

/-- C2 counterexample: in the retry variant (main.go lines 297–348), a
network-failure fetch at attempt 1 — with a full retry schedule remaining
and a prior (expired) cached value present — returns a hard error to the
caller instead of the cached data. -/
theorem fetch_failure_despite_cache_counterexample :
    expiredCache.lastFetched ≠ timeZero ∧
    VariantB.getCachedWeatherData (fun _ _ => none) 3 expiredCache 1
        [(1000, FetchResult.netErr), (1005, FetchResult.netErr),
          (1010, FetchResult.netErr)] =
      (expiredCache, Except.error FetchError.network) :=
  ⟨by decide, rfl⟩

/-- C2 (amended): in the 30-minute variant, whenever any prior cached
ObservationSet exists the caller receives the cache's current data (which a
stale-data failure has just replaced) and never an error; a hard error is
returned only when the cache is empty and the fetch failed.  (In the retry
variant a non-stale fetch failure is returned as an error even when cached
data exists.) -/
theorem fallback_returns_cached (c : weatherCache) (now : Time)
    (r : FetchResult) (hnz : now ≠ timeZero) :
    (c.lastFetched ≠ timeZero →
      (VariantC.getCachedWeatherData c now r).2 =
        Except.ok (VariantC.getCachedWeatherData c now r).1.data) ∧
    (∀ e, (VariantC.getCachedWeatherData c now r).2 = Except.error e →
      c.lastFetched = timeZero ∧
      (VariantC.fetchWeatherData c now r).2 = Except.error e) := by
  have part1 : c.lastFetched ≠ timeZero →
      (VariantC.getCachedWeatherData c now r).2 =
        Except.ok (VariantC.getCachedWeatherData c now r).1.data := by
    intro hc
    unfold VariantC.getCachedWeatherData
    by_cases hf : VariantC.shouldFetchNewData c now
    · rw [if_pos hf]
      cases r with
      | netErr => simp [VariantC.fetchWeatherData, hc]
      | ok resp =>
        cases hO : resp.Observations with
        | nil => simp [VariantC.fetchWeatherData, hO, hc]
        | cons obs rest =>
          by_cases hfr : now - obs.ObsTimeUtc ≤ 2100
          · simp [VariantC.fetchWeatherData, hO, VariantC.isDataFresh, hfr]
          · simp [VariantC.fetchWeatherData, hO, VariantC.isDataFresh, hfr, hnz]
    · simp [hf, hc]
  refine ⟨part1, ?_⟩
  intro e he
  by_cases hc : c.lastFetched = timeZero
  · refine ⟨hc, ?_⟩
    unfold VariantC.getCachedWeatherData at he
    by_cases hf : VariantC.shouldFetchNewData c now
    · rw [if_pos hf] at he
      cases r with
      | netErr =>
        simp [VariantC.fetchWeatherData, hc] at he ⊢
        exact he
      | ok resp =>
        cases hO : resp.Observations with
        | nil =>
          simp [VariantC.fetchWeatherData, hO, hc] at he ⊢
          exact he
        | cons obs rest =>
          by_cases hfr : now - obs.ObsTimeUtc ≤ 2100
          · simp [VariantC.fetchWeatherData, hO, VariantC.isDataFresh, hfr] at he
          · simp [VariantC.fetchWeatherData, hO, VariantC.isDataFresh, hfr,
              hnz] at he
    · exfalso
      have htrue : VariantC.shouldFetchNewData c now = true := by
        simp [VariantC.shouldFetchNewData, hc]
      simp [htrue] at hf
  · have h1 := part1 hc
    rw [he] at h1
    exact absurd h1 (by simp)

/-- Witness for C2 (amended): prior cache present, network failure at
`now = 3000`; the cached data is returned with no error. -/
theorem fallback_returns_cached_witness :
    (3000 : Time) ≠ timeZero ∧ priorCache.lastFetched ≠ timeZero ∧
    (VariantC.getCachedWeatherData priorCache 3000 FetchResult.netErr).2 =
      Except.ok
        (VariantC.getCachedWeatherData priorCache 3000 FetchResult.netErr).1.data :=
  ⟨by decide, by decide,
    (fallback_returns_cached priorCache 3000 FetchResult.netErr (by decide)).1
      (by decide)⟩
